import Mathlib

/-!
Verification of the pykafka client (kafka/consumer.py, kafka/producer.py,
kafka/io.py) against its natural-language specification.

Shallow embedding conventions:
* Byte strings are `List Nat`, entries in `0..255`.
* `struct.pack`/`struct.unpack` become explicit big-endian byte codecs;
  `unpack` requires the exact field width, as in Python, and returns
  `Option` (`none` models `struct.error`).
* Python slices `data[a:b]`, including negative indices, are `pySlice`.
* Exceptions are modelled with `Except PyErr`.
* The unbounded `while` loop of `parse_message_set_from` is modelled with an
  explicit fuel parameter; `none` means the loop did not finish within the
  budget.  `data.length + 1` iterations always suffice when every size field
  read is nonnegative, because each iteration then advances by at least 4
  bytes.
* `kafka.message` and `kafka.request_type` are imported by the sources but
  are not part of the code base under verification; they are modelled from
  the spec where noted.
-/

/-- `struct.pack('>H', n)`: big-endian unsigned 16-bit.  Used only with
in-range values (request kinds, topic lengths below 2^16). -/
def packU16 (n : Nat) : List Nat :=
  [n / 256 % 256, n % 256]

/-- `struct.pack('>i', n)`: big-endian signed 32-bit, two's complement. -/
def packI32 (n : Int) : List Nat :=
  let m : Nat := (n % 4294967296).toNat
  [m / 16777216 % 256, m / 65536 % 256, m / 256 % 256, m % 256]

/-- `struct.pack('>q', n)`: big-endian signed 64-bit, two's complement. -/
def packI64 (n : Int) : List Nat :=
  let m : Nat := (n % 18446744073709551616).toNat
  [m / 72057594037927936 % 256, m / 281474976710656 % 256,
   m / 1099511627776 % 256, m / 4294967296 % 256,
   m / 16777216 % 256, m / 65536 % 256, m / 256 % 256, m % 256]

/-- `struct.pack('>Q', n)`: big-endian unsigned 64-bit. -/
def packU64 (n : Nat) : List Nat :=
  [n / 72057594037927936 % 256, n / 281474976710656 % 256,
   n / 1099511627776 % 256, n / 4294967296 % 256,
   n / 16777216 % 256, n / 65536 % 256, n / 256 % 256, n % 256]

/-- `struct.unpack('>i', s)[0]`: demands exactly 4 bytes (else
`struct.error`, modelled as `none`), decodes signed two's complement. -/
def unpackI32 : List Nat → Option Int
  | [b3, b2, b1, b0] =>
    let v : Nat := b3 * 16777216 + b2 * 65536 + b1 * 256 + b0
    some (if v < 2147483648 then (v : Int) else (v : Int) - 4294967296)
  | _ => none

/-- `struct.unpack('>q', s)[0]`: demands exactly 8 bytes, signed. -/
def unpackI64 : List Nat → Option Int
  | [b7, b6, b5, b4, b3, b2, b1, b0] =>
    let v : Nat := b7 * 72057594037927936 + b6 * 281474976710656 +
      b5 * 1099511627776 + b4 * 4294967296 +
      b3 * 16777216 + b2 * 65536 + b1 * 256 + b0
    some (if v < 9223372036854775808 then (v : Int)
          else (v : Int) - 18446744073709551616)
  | _ => none

/-- `struct.unpack('>Q', s)[0]`: demands exactly 8 bytes, unsigned. -/
def unpackU64 : List Nat → Option Nat
  | [b7, b6, b5, b4, b3, b2, b1, b0] =>
    some (b7 * 72057594037927936 + b6 * 281474976710656 +
      b5 * 1099511627776 + b4 * 4294967296 +
      b3 * 16777216 + b2 * 65536 + b1 * 256 + b0)
  | _ => none

/-- Normalisation of one Python slice index against a list of length `len`:
a negative index counts from the end (clamped at 0), a nonnegative one is
clamped at `len`. -/
def sliceIdx (len : Nat) (i : Int) : Nat :=
  if i < 0 then ((len : Int) + i).toNat else min i.toNat len

/-- Python slice `l[a:b]` with full CPython semantics for negative and
out-of-range indices. -/
def pySlice (l : List Nat) (a b : Int) : List Nat :=
  (l.take (sliceIdx l.length b)).drop (sliceIdx l.length a)

/-- Python exceptions that the embedded code can raise. -/
inductive PyErr where
  | structError
  | attributeError
  | indexError
  | nameError
  | connectionResetException
  | socketError (err : Int)
  | ioErrorTimeout
  deriving DecidableEq, Repr

/-- A kafka message.  Modelled from the spec: `kafka.message` is imported by
consumer.py and producer.py but is not under verification; the spec fixes a
Message as an opaque byte payload that the library only wraps and unwraps
(§3), with the `i32 size` framing added and removed by the codec. -/
structure PyMessage where
  payload : List Nat
  deriving DecidableEq, Repr

/-- Modelled from the spec: `kafka.message.parse_from(slice)` receives the
size-prefixed slice `i32 msgSize | msgBytes` and yields the message carried
after the 4-byte prefix (§4.2, §8 end-to-end example). -/
def message_parse_from (bs : List Nat) : PyMessage :=
  ⟨bs.drop 4⟩

/-- Modelled from the spec: `Message.encode()` is the opaque payload; the
producer adds the `i32 size` frame itself (producer.py `'>i%ds'`). -/
def PyMessage.encode (m : PyMessage) : List Nat :=
  m.payload

/-- Modelled from the spec: `kafka.request_type` constants.  The spec fixes
three request kinds; their numeric ids are not specified, distinct small
naturals are used. -/
def PRODUCE : Nat := 0

/-- Modelled from the spec: fetch request kind (see `PRODUCE`). -/
def FETCH : Nat := 1

/-- Modelled from the spec: offset-query request kind (see `PRODUCE`). -/
def OFFSETS : Nat := 4

/-- Consumer state (consumer.py `Consumer.__init__`): topic bytes,
partition, mutable byte offset, max fetch size. -/
structure Consumer where
  topic : List Nat
  partition : Int
  offset : Int
  max_size : Int
  deriving DecidableEq, Repr

/-- The `while` loop of `Consumer.parse_message_set_from` (consumer.py):

    while (processed <= length):                      -- length = len(data) - 4
        message_size = struct.unpack('>i', data[processed:processed + 4])[0]
        if processed + message_size + 4 > len(data):
            break
        messages.append(kafka.message.parse_from(
            data[processed:processed + message_size + 4]))
        processed += 4 + message_size

`fuel` bounds the number of iterations; `none` means the budget ran out. -/
def parseMsLoop (data : List Nat) : Nat → Int → List PyMessage →
    Option (Except PyErr (List PyMessage × Int))
  | 0, _, _ => none
  | fuel + 1, processed, msgs =>
    if processed ≤ (data.length : Int) - 4 then
      match unpackI32 (pySlice data processed (processed + 4)) with
      | none => some (.error .structError)
      | some sz =>
        if (data.length : Int) < processed + sz + 4 then
          some (.ok (msgs, processed))
        else
          parseMsLoop data fuel (processed + 4 + sz)
            (msgs ++ [message_parse_from (pySlice data processed (processed + sz + 4))])
    else
      some (.ok (msgs, processed))

/-- `Consumer.parse_message_set_from(data)`: runs the scan loop from
position 0, then `self.offset += processed` and returns the messages.  On a
`struct.error` the offset update is never reached. -/
def Consumer.parse_message_set_from (c : Consumer) (data : List Nat) (fuel : Nat) :
    Option (Except PyErr (List PyMessage × Consumer)) :=
  match parseMsLoop data fuel 0 [] with
  | none => none
  | some (.error e) => some (.error e)
  | some (.ok (msgs, processed)) =>
    some (.ok (msgs, { c with offset := c.offset + processed }))

/-- `Consumer.request_size`: 2 + 2 + len(topic) + 4 + 8 + 4. -/
def Consumer.request_size (c : Consumer) : Nat :=
  2 + 2 + c.topic.length + 4 + 8 + 4

/-- `Consumer.encode_request_size`: `struct.pack('>i', request_size())`. -/
def Consumer.encode_request_size (c : Consumer) : List Nat :=
  packI32 c.request_size

/-- `Consumer.encode_request`: `struct.pack('>HH%dsiQi', ...)` — the fetch
frame at the current offset.  `'>Q'` demands a nonnegative offset; this
encoder is only used with `0 ≤ offset`. -/
def Consumer.encode_request (c : Consumer) : List Nat :=
  packU16 FETCH ++ packU16 c.topic.length ++ c.topic ++
    packI32 c.partition ++ packU64 c.offset.toNat ++ packI32 c.max_size

/-- `Consumer.encode_offset_request(time, max_offsets)`:
`struct.pack('>HH%dsiqi', OFFSETS, len, topic, partition, time, max_offsets)`. -/
def Consumer.encode_offset_request (c : Consumer) (time : Int) (max_offsets : Int) :
    List Nat :=
  packU16 OFFSETS ++ packU16 c.topic.length ++ c.topic ++
    packI32 c.partition ++ packI64 time ++ packI32 max_offsets

/-- The `while (count > 0)` loop of `Consumer.parse_offset_response`:
reads `count` unsigned 64-bit offsets starting at byte `processed`. -/
def parseOffsetsLoop (data : List Nat) : Nat → Nat → Except PyErr (List Nat)
  | 0, _ => .ok []
  | n + 1, processed =>
    match unpackU64 ((data.drop processed).take 8) with
    | none => .error .structError
    | some o =>
      match parseOffsetsLoop data n (processed + 8) with
      | .error e => .error e
      | .ok rest => .ok (o :: rest)

/-- `Consumer.parse_offset_response(data)`: `count` from `data[0:4]`, then
`count` × u64 offsets from byte 4 on. -/
def Consumer.parse_offset_response (_c : Consumer) (data : List Nat) :
    Except PyErr (List Nat) :=
  match unpackI32 (data.take 4) with
  | none => .error .structError
  | some count => parseOffsetsLoop data count.toNat 4

/-- Producer state (producer.py).  `max_message_sz` is `Option` because a
Python attribute may be absent: reading an unset attribute raises
`AttributeError`. -/
structure Producer where
  topic : List Nat
  partition : Int
  max_message_sz : Option Nat
  deriving DecidableEq, Repr

/-- `Producer.__init__(topic, partition, host, port, max_message_sz)`: the
body's line `max_message_sz = max_message_sz` rebinds the parameter to a
local name; no `self.max_message_sz` attribute is ever assigned, in this
class or its bases, so the field is `none`.  The `max_message_sz` argument
is accepted (default 1048576) and discarded, as in the source. -/
def Producer.init (topic : List Nat) (partition : Int)
    (max_message_sz : Nat := 1048576) : Producer :=
  let _ := max_message_sz
  { topic := topic, partition := partition, max_message_sz := none }

/-- `Producer._pack_kafka_message(payload)`:
`struct.pack('>i%ds', len(payload), payload)`. -/
def Producer.pack_kafka_message (_p : Producer) (payload : List Nat) : List Nat :=
  packI32 payload.length ++ payload

/-- `Producer._pack_payload(messages)`: joins the already-framed messages
and builds `>HH%dsii%ds` — kind, topic length, topic, partition, payload
length, payload. -/
def Producer.pack_payload (p : Producer) (messages : List (List Nat)) : List Nat :=
  let payload := messages.flatten
  packU16 PRODUCE ++ packU16 p.topic.length ++ p.topic ++
    packI32 p.partition ++ packI32 payload.length ++ payload

/-- The generator body of `Producer.encode_request(messages)`:

    for message in messages:
        encoded = message.encode()
        encoded_sz = len(encoded)
        if encoded_sz + encoded_msgs_sz > self.max_message_sz:   -- attribute read
            yield self._pack_kafka_message(self._pack_payload(encoded_msgs))
            encoded_msgs = []
            encoded_msgs_sz = 0
        msg = struct.pack('>i%ds' % encoded_sz, encoded_sz, encoded)
        encoded_msgs.append(msg)
        encoded_msgs_sz += encoded_sz
    if encoded_msgs:
        yield self._pack_kafka_message(self._pack_payload(encoded_msgs))

Reading `self.max_message_sz` when the attribute is absent raises
`AttributeError`; the frames yielded before an exception are dropped in
this model, since the error here occurs before any yield. -/
def encodeRequestGo (p : Producer) : List PyMessage → List (List Nat) → Nat →
    Except PyErr (List (List Nat))
  | [], acc, _ =>
    .ok (if acc.isEmpty then [] else [p.pack_kafka_message (p.pack_payload acc)])
  | m :: rest, acc, accSz =>
    let encoded := m.encode
    let encoded_sz := encoded.length
    match p.max_message_sz with
    | none => .error .attributeError
    | some mx =>
      if encoded_sz + accSz > mx then
        match encodeRequestGo p rest [packI32 encoded_sz ++ encoded] encoded_sz with
        | .error e => .error e
        | .ok frames => .ok (p.pack_kafka_message (p.pack_payload acc) :: frames)
      else
        encodeRequestGo p rest (acc ++ [packI32 encoded_sz ++ encoded])
          (accSz + encoded_sz)

/-- `Producer.encode_request(messages)`: the fully-consumed generator. -/
def Producer.encode_request (p : Producer) (messages : List PyMessage) :
    Except PyErr (List (List Nat)) :=
  encodeRequestGo p messages [] 0

/-- `BatchProducer.MAX_RESPAWNS`. -/
def MAX_RESPAWNS : Nat := 5

/-- BatchProducer state (producer.py `BatchProducer.__init__`): the pending
queue, whether a timer thread object exists (`self.timer` not `None`), and
the respawn counter. -/
structure BatchProducer where
  message_queue : List PyMessage
  timer : Bool
  respawns : Nat
  deriving DecidableEq, Repr

/-- `BatchProducer.__init__`: `self._message_queue = []`, `self.timer =
None`, `self.respawns = 0`. -/
def BatchProducer.init : BatchProducer :=
  { message_queue := [], timer := false, respawns := 0 }

/-- `BatchProducer.check_timer()`; `timerAlive` is the observation
`self.timer.is_alive()` of the background thread at this call:

    if (self.timer and self.timer.is_alive()) or self.respawns > self.MAX_RESPAWNS:
        return
    self.respawns += 1
    self.timer = threading.Thread(...); self.timer.start(); self.connect()
-/
def BatchProducer.check_timer (bp : BatchProducer) (timerAlive : Bool) :
    BatchProducer :=
  if (bp.timer && timerAlive) = true ∨ bp.respawns > MAX_RESPAWNS then bp
  else { bp with respawns := bp.respawns + 1, timer := true }

/-- `BatchProducer.enqueue(message)`: under the lock, `check_timer()` then
`self._message_queue.append(message)`. -/
def BatchProducer.enqueue (bp : BatchProducer) (timerAlive : Bool)
    (m : PyMessage) : BatchProducer :=
  let bp1 := bp.check_timer timerAlive
  { bp1 with message_queue := bp1.message_queue ++ [m] }

/-- A sequence of `enqueue` calls; each event carries the thread-aliveness
observation made by that call and the enqueued message. -/
def runEnqueues (bp : BatchProducer) : List (Bool × PyMessage) → BatchProducer
  | [] => bp
  | (a, m) :: evs => runEnqueues (bp.enqueue a m) evs

/-- Number of thread starts (`self.timer.start()`) performed along a
sequence of `enqueue` calls: a start happens exactly when `check_timer`
increments `respawns`. -/
def startCount (bp : BatchProducer) : List (Bool × PyMessage) → Nat
  | [] => 0
  | (a, m) :: evs =>
    (if (bp.check_timer a).respawns = bp.respawns then 0 else 1) +
      startCount (bp.enqueue a m) evs

/-- The visible attributes of the `errno` module: `EAGAIN` and `EWOULDBLOCK`
exist; the misspelled `EWOULDBOCK` used by `IO._check_reset` does not, so
looking it up raises `AttributeError`. -/
def errno_lookup : String → Option Int
  | "EAGAIN" => some 11
  | "EWOULDBLOCK" => some 11
  | _ => none

/-- `errno.EAGAIN`. -/
def EAGAIN : Int := 11

/-- The target of a Python 2 `except` clause: either an exception class or,
erroneously, a plain value such as the integer `errno.EAGAIN`. -/
inductive ExcTarget where
  | intConst (n : Int)
  | socketErrorClass

/-- Python 2 exception matching: a handler whose target is not an exception
class (here an integer) matches no raised exception; `except socket.error`
matches exactly the `socketError` instances. -/
def excMatches : ExcTarget → PyErr → Bool
  | .intConst _, _ => false
  | .socketErrorClass, .socketError _ => true
  | .socketErrorClass, _ => false

/-- Connection state (io.py class `IO`): whether `self.socket` is set. -/
structure IOState where
  socket : Option Unit
  deriving DecidableEq, Repr

/-- Outcome of one `socket.recv_into` call inside `IO.read`: either a chunk
of received bytes or a raised exception (e.g. `socket.error(EAGAIN)` on
would-block/timeout). -/
inductive RecvEvent where
  | chunk (bytes : List Nat)
  | raised (e : PyErr)

/-- Result of `IO.read` / `IO.write`: normal return, a propagated
exception (with the connection state at that point), or starvation of the
event oracle (the call is still blocked in the loop). -/
inductive ReadResult where
  | ok (data : List Nat) (st : IOState)
  | raised (e : PyErr) (st : IOState)
  | blocked
  deriving DecidableEq, Repr

/-- The receive loop of `IO.read(length)` with its exception handler:

    try:
        while bytes_left > 0:
            read_length = self.socket.recv_into(..., bytes_left)
            bytes_left -= read_length
    except errno.EAGAIN:                  -- an int, not an exception class
        self.disconnect()
        raise IOError, "Timeout reading from the socket."
    else:
        return str(buf)

The handler's target is the integer `errno.EAGAIN`, so it matches no raised
exception; the disconnect-and-Timeout branch is kept, guarded by the
Python 2 matching rule. -/
def readLoop (st : IOState) : Nat → List Nat → List RecvEvent → ReadResult
  | bytesLeft, buf, events =>
    if bytesLeft = 0 then .ok buf st
    else
      match events with
      | [] => .blocked
      | .chunk bs :: rest => readLoop st (bytesLeft - bs.length) (buf ++ bs) rest
      | .raised e :: _ =>
        if excMatches (.intConst EAGAIN) e then
          .raised .ioErrorTimeout { st with socket := none }
        else
          .raised e st

/-- `IO.read(length)`, driven by the oracle of `recv_into` outcomes. -/
def KafkaIO.read (st : IOState) (length : Nat) (events : List RecvEvent) :
    ReadResult :=
  readLoop st length [] events

/-- Outcome of the one-byte non-blocking peek `socket.recv(1, MSG_DONTWAIT)`
inside `IO._check_reset`: data was returned (possibly empty, the RST case)
or `socket.error(err)` was raised (EAGAIN when the connection is healthy). -/
inductive PeekEvent where
  | data (bytes : List Nat)
  | sockError (err : Int)

/-- `IO._check_reset()`:

    try:
        self.socket.recv(1, socket.MSG_DONTWAIT)
        raise ConnectionResetException()
    except socket.error, e:
        err = e.args[0]
        if not err in (errno.EAGAIN, errno.EWOULDBOCK):
            logging.exception("socket.error")
            raise

Building the tuple looks up `errno.EWOULDBOCK`, which does not exist, so
the whole `except` body raises `AttributeError`; were the tuple built, the
re-raise branch would raise `NameError` first because `logging` is unbound
in io.py. -/
def KafkaIO.check_reset : PeekEvent → Except PyErr Unit
  | .data _ => .error .connectionResetException
  | .sockError err =>
    match errno_lookup "EAGAIN", errno_lookup "EWOULDBOCK" with
    | some a, some b => if err = a ∨ err = b then .ok () else .error .nameError
    | _, _ => .error .attributeError

/-- One iteration of the send loop of `IO.write`: the byte count returned
by `socket.send(remainder)` and the peek outcome seen by the subsequent
`_check_reset()`. -/
structure WriteStep where
  sent : Nat
  peek : PeekEvent

/-- Result of `IO.write`: the returned byte count, a propagated exception,
or starvation of the step oracle. -/
inductive WriteResult where
  | ok (n : Nat) (st : IOState)
  | raised (e : PyErr) (st : IOState)
  | blocked
  deriving DecidableEq, Repr

/-- The send loop of `IO.write(data)`:

    while write_length > wrote_length:
        remainder = data[wrote_length:]
        wrote_length += self.socket.send(remainder)
        self._check_reset()
    return wrote_length
-/
def writeLoop (st : IOState) (writeLength : Nat) : Nat → List WriteStep →
    WriteResult
  | wrote, steps =>
    if writeLength ≤ wrote then .ok wrote st
    else
      match steps with
      | [] => .blocked
      | s :: rest =>
        let wrote1 := wrote + s.sent
        match KafkaIO.check_reset s.peek with
        | .error e => .raised e st
        | .ok _ => writeLoop st writeLength wrote1 rest

/-- `IO.write(data)`: lazily connects if `self.socket is None`, then runs
the send loop from `wrote_length = 0`. -/
def KafkaIO.write (st : IOState) (data : List Nat) (steps : List WriteStep) :
    WriteResult :=
  let st1 := match st.socket with
    | none => { st with socket := some () }
    | some _ => st
  writeLoop st1 data.length 0 steps

/-- `socket.send` never reports more bytes than it was given: each step's
`sent` is bounded by the bytes still unwritten at that step.  This is the
OS-level contract `IO.write` relies on. -/
def sendsBounded : Nat → List WriteStep → Prop
  | _, [] => True
  | rem, s :: rest => s.sent ≤ rem ∧ sendsBounded (rem - s.sent) rest

/-- `Consumer.consume()`, faithful to the call chain:

    self.send_consume_request()           -- write(size prefix); write(fetch frame)
    return self.parse_message_set_from(self.read_data_response())

Each `write` goes through `IO.write`, whose loop runs `_check_reset()`
after every send; only if both writes return does the call read the
response and parse it.  `steps1`/`steps2` drive the two writes' sends and
peeks; `data` is the payload `read_data_response` would return (its own
failure modes are environment-dependent and unreachable here, because the
first write raises in `_check_reset` — see C6).  The result pairs the
call's outcome (`none` = an oracle ran dry, i.e. the call is still inside
a loop) with the consumer state after the call: an exception aborts the
call before `self.offset += processed`, leaving the consumer unchanged. -/
def Consumer.consume (c : Consumer) (st : IOState)
    (steps1 steps2 : List WriteStep) (data : List Nat) :
    Option (Except PyErr (List PyMessage)) × Consumer :=
  match KafkaIO.write st c.encode_request_size steps1 with
  | .blocked => (none, c)
  | .raised e _ => (some (.error e), c)
  | .ok _ st1 =>
    match KafkaIO.write st1 c.encode_request steps2 with
    | .blocked => (none, c)
    | .raised e _ => (some (.error e), c)
    | .ok _ _ =>
      match c.parse_message_set_from data (data.length + 1) with
      | none => (none, c)
      | some (.error e) => (some (.error e), c)
      | some (.ok (msgs, c1)) => (some (.ok msgs), c1)

/-- A sequence of `consume()` calls: each call is driven by its own
connection state, send/peek oracles and response payload.  A call that
never returns (`none`) ends the sequence; a call that raises surfaces the
exception to the caller, who may call again; a call that returns
contributes its decoded messages. -/
def runConsume (c : Consumer) :
    List (IOState × List WriteStep × List WriteStep × List Nat) →
      List (List PyMessage) × Consumer
  | [] => ([], c)
  | (st, s1, s2, d) :: rs =>
    match c.consume st s1 s2 d with
    | (none, c1) => ([], c1)
    | (some (.error _), c1) => runConsume c1 rs
    | (some (.ok msgs), c1) =>
      (msgs :: (runConsume c1 rs).1, (runConsume c1 rs).2)

/-- `Consumer.get_latest_offset()`, faithful to the call chain:

    self.write(self.encode_request_size())
    self.write(self.encode_offset_request(-1, 1))
    return self.parse_offset_response(self.read_data_response())[0]

Both writes go through `IO.write` (each send followed by
`_check_reset()`); only if both return is the response read, parsed, and
indexed (an empty offset list raises `IndexError`).  `resp` is the payload
`read_data_response` would return.  Nothing on any path assigns
`self.offset`, so the returned consumer is the argument. -/
def Consumer.get_latest_offset (c : Consumer) (st : IOState)
    (steps1 steps2 : List WriteStep) (resp : List Nat) :
    Option (Except PyErr Nat) × Consumer :=
  match KafkaIO.write st c.encode_request_size steps1 with
  | .blocked => (none, c)
  | .raised e _ => (some (.error e), c)
  | .ok _ st1 =>
    match KafkaIO.write st1 (c.encode_offset_request (-1) 1) steps2 with
    | .blocked => (none, c)
    | .raised e _ => (some (.error e), c)
    | .ok _ _ =>
      (some (match c.parse_offset_response resp with
        | .error e => .error e
        | .ok [] => .error .indexError
        | .ok (o :: _) => .ok o), c)

/-- `Consumer.get_earliest_offset()`: as `get_latest_offset` but the
second write carries the offset request with time = −2. -/
def Consumer.get_earliest_offset (c : Consumer) (st : IOState)
    (steps1 steps2 : List WriteStep) (resp : List Nat) :
    Option (Except PyErr Nat) × Consumer :=
  match KafkaIO.write st c.encode_request_size steps1 with
  | .blocked => (none, c)
  | .raised e _ => (some (.error e), c)
  | .ok _ st1 =>
    match KafkaIO.write st1 (c.encode_offset_request (-2) 1) steps2 with
    | .blocked => (none, c)
    | .raised e _ => (some (.error e), c)
    | .ok _ _ =>
      (some (match c.parse_offset_response resp with
        | .error e => .error e
        | .ok [] => .error .indexError
        | .ok (o :: _) => .ok o), c)

/-- Specification-side shape of a message set: the concatenation of the
individually framed messages `i32 size | bytes` (the payload built by
`Producer.encode_request` and scanned by `parse_message_set_from`). -/
def messageSet : List (List Nat) → List Nat
  | [] => []
  | m :: rest => packI32 m.length ++ m ++ messageSet rest

/-- A trailing buffer remnant at which the scan loop stops: either fewer
than 4 bytes remain, or the 4-byte size it announces does not fit in the
remaining bytes. -/
def tailStops (tail : List Nat) : Prop :=
  tail.length < 4 ∨
    ∃ s, unpackI32 (tail.take 4) = some s ∧ (tail.length : Int) < s + 4

/-- Total offset advance claimed for a run of `consume()` calls: the sum of
`4 + size` over all fully decoded messages. -/
def totalAdvance (msgss : List (List PyMessage)) : Nat :=
  (msgss.map (fun msgs => (msgs.map (fun m => 4 + m.payload.length)).sum)).sum

theorem packU16_length (n : Nat) : (packU16 n).length = 2 := rfl

theorem packI32_length (n : Int) : (packI32 n).length = 4 := rfl

theorem packI64_length (n : Int) : (packI64 n).length = 8 := rfl

theorem packU64_length (n : Nat) : (packU64 n).length = 8 := rfl

theorem take_append_add (l1 l2 : List Nat) (m : Nat) :
    (l1 ++ l2).take (l1.length + m) = l1 ++ l2.take m := by
  induction l1 with
  | nil => simp
  | cons a t ih =>
    rw [List.cons_append, List.length_cons,
      show t.length + 1 + m = (t.length + m) + 1 from by omega,
      List.take_succ_cons, ih, List.cons_append]

theorem take_min_length (l : List Nat) (k : Nat) :
    l.take (min k l.length) = l.take k := by
  rcases Nat.le_total k l.length with h | h
  · rw [Nat.min_eq_left h]
  · rw [Nat.min_eq_right h, List.take_length, List.take_of_length_le h]

theorem pySlice_at_append (pre rest : List Nat) (k : Nat) :
    pySlice (pre ++ rest) (pre.length : Int) ((pre.length : Int) + (k : Int)) =
      rest.take k := by
  unfold pySlice sliceIdx
  rw [if_neg (by omega), if_neg (by omega)]
  have e1 : ((pre.length : Int) + (k : Int)).toNat = pre.length + k := by omega
  have e2 : ((pre.length : Int)).toNat = pre.length := Int.toNat_ofNat _
  rw [e1, e2, List.length_append, Nat.add_min_add_left,
    Nat.min_eq_left (Nat.le_add_right _ _), take_append_add,
    List.drop_left, take_min_length]

theorem unpackI32_packI32_ofNat (k : Nat) (hk : k < 2147483648) :
    unpackI32 (packI32 (k : Int)) = some (k : Int) := by
  have hm : ((k : Int) % 4294967296) = (k : Int) := by
    apply Int.emod_eq_of_lt (Int.ofNat_nonneg k)
    exact_mod_cast (by omega : k < 4294967296)
  simp only [packI32, hm, Int.toNat_ofNat, unpackI32]
  have hv : k / 16777216 % 256 * 16777216 + k / 65536 % 256 * 65536 +
      k / 256 % 256 * 256 + k % 256 = k := by omega
  rw [hv, if_pos hk]

theorem messageSet_length (msgs : List (List Nat)) :
    (messageSet msgs).length = (msgs.map (fun m => 4 + m.length)).sum := by
  induction msgs with
  | nil => rfl
  | cons m rest ih =>
    simp [messageSet, packI32_length, ih]
    omega

theorem length_le_messageSet_length (msgs : List (List Nat)) :
    msgs.length ≤ (messageSet msgs).length := by
  induction msgs with
  | nil => simp [messageSet]
  | cons m rest ih =>
    simp only [messageSet, List.length_append, List.length_cons, packI32_length]
    omega

theorem parseMsLoop_spec (msgs : List (List Nat)) :
    ∀ (pre tail : List Nat) (acc : List PyMessage) (fuel : Nat),
    (∀ m ∈ msgs, m.length < 2147483648) → tailStops tail →
    msgs.length + 1 ≤ fuel →
    parseMsLoop (pre ++ (messageSet msgs ++ tail)) fuel (pre.length : Int) acc =
      some (.ok (acc ++ msgs.map PyMessage.mk,
        (pre.length : Int) + ((messageSet msgs).length : Int))) := by
  induction msgs with
  | nil =>
    intro pre tail acc fuel _ htail hfuel
    match fuel, hfuel with
    | f + 1, _ =>
    simp only [messageSet, List.nil_append, List.map_nil, List.append_nil,
      List.length_nil, Int.ofNat_zero, Int.add_zero, parseMsLoop]
    by_cases hg : (pre.length : Int) ≤ ((pre ++ tail).length : Int) - 4
    · rw [if_pos hg]
      have hlen : 4 ≤ tail.length := by
        rw [List.length_append] at hg
        omega
      rcases htail with h4 | ⟨s, hs, hlt⟩
      · omega
      · have h4i : ((pre.length : Int) + 4) = (pre.length : Int) + ((4 : Nat) : Int) := by
          norm_num
        have hbreak : (((pre ++ tail).length : Nat) : Int) < (pre.length : Int) + s + 4 := by
          rw [List.length_append]
          push_cast
          omega
        rw [h4i, pySlice_at_append]
        simp only [hs]
        rw [if_pos hbreak]
    · rw [if_neg hg]
  | cons m rest ih =>
    intro pre tail acc fuel hsz htail hfuel
    match fuel, hfuel with
    | f + 1, hfuel =>
    have hm : m.length < 2147483648 := hsz m (by simp)
    have hassoc : messageSet (m :: rest) ++ tail =
        packI32 m.length ++ (m ++ (messageSet rest ++ tail)) := by
      simp [messageSet, List.append_assoc]
    rw [hassoc]
    simp only [parseMsLoop]
    have hglen : ((pre ++ (packI32 m.length ++ (m ++ (messageSet rest ++ tail)))).length : Int) =
        (pre.length : Int) + 4 + m.length + (messageSet rest).length + tail.length := by
      simp [List.length_append, packI32_length]
      ring
    rw [if_pos (by rw [hglen]; omega)]
    have h4i : ((pre.length : Int) + 4) = (pre.length : Int) + ((4 : Nat) : Int) := by
      norm_num
    rw [h4i, pySlice_at_append]
    have htake4 : (packI32 (m.length : Int) ++ (m ++ (messageSet rest ++ tail))).take 4 =
        packI32 (m.length : Int) := by
      exact List.take_left' (packI32_length _)
    have hnobreak : ¬ (((pre ++ (packI32 (m.length : Int) ++
        (m ++ (messageSet rest ++ tail)))).length : Nat) : Int) <
        (pre.length : Int) + (m.length : Int) + 4 := by
      rw [hglen]
      omega
    simp only [htake4, unpackI32_packI32_ofNat m.length hm]
    rw [if_neg hnobreak]
    have hslice : (pre.length : Int) + (m.length : Int) + 4 =
        (pre.length : Int) + (((m.length + 4 : Nat)) : Int) := by
      push_cast
      ring
    rw [hslice, pySlice_at_append]
    have htakem : (packI32 m.length ++ (m ++ (messageSet rest ++ tail))).take (m.length + 4) =
        packI32 (m.length : Int) ++ m := by
      have h1 : (packI32 (m.length : Int) ++ m).length = m.length + 4 := by
        rw [List.length_append, packI32_length]
        omega
      calc (packI32 m.length ++ (m ++ (messageSet rest ++ tail))).take (m.length + 4)
        _ = ((packI32 (m.length : Int) ++ m) ++ (messageSet rest ++ tail)).take
              ((packI32 (m.length : Int) ++ m).length) := by
              rw [List.append_assoc, h1]
        _ = packI32 (m.length : Int) ++ m := List.take_left _ _
    rw [htakem]
    have hparsed : message_parse_from (packI32 (m.length : Int) ++ m) = PyMessage.mk m := by
      unfold message_parse_from
      rw [List.drop_left' (packI32_length _)]
    rw [hparsed]
    have hstep : (pre.length : Int) + ((4 : Nat) : Int) + (m.length : Int) =
        (((pre ++ (packI32 (m.length : Int) ++ m)).length : Nat) : Int) := by
      simp [List.length_append, packI32_length]
      ring
    have hdata : pre ++ (packI32 (m.length : Int) ++ (m ++ (messageSet rest ++ tail))) =
        (pre ++ (packI32 (m.length : Int) ++ m)) ++ (messageSet rest ++ tail) := by
      simp [List.append_assoc]
    rw [hstep, hdata,
      ih (pre ++ (packI32 (m.length : Int) ++ m)) tail (acc ++ [PyMessage.mk m]) f
        (fun x hx => hsz x (by simp [hx])) htail
        (by simp only [List.length_cons] at hfuel; omega)]
    have hlist : (acc ++ [PyMessage.mk m]) ++ rest.map PyMessage.mk =
        acc ++ (m :: rest).map PyMessage.mk := by
      simp
    have hnum : (((pre ++ (packI32 (m.length : Int) ++ m)).length : Nat) : Int) +
        ((messageSet rest).length : Int) =
        (pre.length : Int) + ((messageSet (m :: rest)).length : Int) := by
      simp only [List.length_append, packI32_length, messageSet]
      push_cast
      ring
    rw [hlist, hnum]

theorem parse_msgset_aux (c : Consumer) (msgs : List (List Nat))
    (tail : List Nat) (fuel : Nat)
    (hsz : ∀ m ∈ msgs, m.length < 2147483648) (htail : tailStops tail)
    (hfuel : msgs.length + 1 ≤ fuel) :
    c.parse_message_set_from (messageSet msgs ++ tail) fuel =
      some (.ok (msgs.map PyMessage.mk,
        { c with offset := c.offset + ((messageSet msgs).length : Int) })) := by
  unfold Consumer.parse_message_set_from
  have h := parseMsLoop_spec msgs [] tail [] fuel hsz htail hfuel
  simp only [List.nil_append, List.length_nil, Nat.cast_zero, Int.zero_add,
    List.append_nil] at h
  simp only [h]

/-- C3: scanning a payload made of complete size-prefixed frames followed by
a trailing remnant at which the stop rule fires (fewer than 4 bytes, or an
announced size that does not fit the remaining bytes), the parser decodes
exactly the complete messages, in order, and the consumed-byte count — the
offset advance — covers exactly those frames: the trailing partial message
is left unconsumed and uncounted.  The fuel may be any sufficient
iteration budget. -/
theorem parse_message_set_spec (c : Consumer) (msgs : List (List Nat))
    (tail : List Nat) (fuel : Nat)
    (hsz : ∀ m ∈ msgs, m.length < 2147483648) (htail : tailStops tail)
    (hfuel : msgs.length + 1 ≤ fuel) :
    c.parse_message_set_from (messageSet msgs ++ tail) fuel =
      some (.ok (msgs.map PyMessage.mk,
        { c with offset := c.offset + ((messageSet msgs).length : Int) })) :=
  parse_msgset_aux c msgs tail fuel hsz htail hfuel

/-- The 2-messages-plus-3-byte-remnant instance of C3: exactly 2 decoded
messages, offset advanced by the 13 bytes of the two complete frames only. -/
theorem parse_message_set_spec_witness :
    (Consumer.mk [116] 0 0 1048576).parse_message_set_from
        (messageSet [[10, 20, 30], [40, 50]] ++ [0, 0, 25]) 17 =
      some (.ok ([PyMessage.mk [10, 20, 30], PyMessage.mk [40, 50]],
        Consumer.mk [116] 0 13 1048576)) := by
  have h := parse_message_set_spec (Consumer.mk [116] 0 0 1048576)
      [[10, 20, 30], [40, 50]] [0, 0, 25] 17 (by decide) (Or.inl (by decide))
      (by decide)
  simpa using h

/-- C1 (code evaluation at the failing input): `Producer.__init__` never
assigns `self.max_message_sz` (the line `max_message_sz = max_message_sz`
rebinds a local), so `encode_request` raises `AttributeError` on its first
message — here the single in-limit message "hello" — instead of producing
the frame the round-trip claim starts from. -/
theorem encode_request_attribute_error_roundtrip :
    (Producer.init [116] 0).encode_request [PyMessage.mk [104, 101, 108, 108, 111]] =
      .error .attributeError := rfl

/-- C4 (code evaluation at the failing input): with the constructor's
`max_message_sz = 100` argument and two messages of encoded size 60 each,
`encode_request` yields no frames at all — it raises `AttributeError` at
the first size comparison, because the attribute was never stored. -/
theorem encode_request_attribute_error_batching :
    (Producer.init [116] 0 100).encode_request
        [PyMessage.mk (List.replicate 60 0), PyMessage.mk (List.replicate 60 0)] =
      .error .attributeError := rfl

/-- C9 (code evaluation at the failing input): a single message one byte
over the documented default limit of 1048576 is not emitted as an
over-limit frame; `encode_request` raises `AttributeError` at the size
comparison. -/
theorem encode_request_attribute_error_oversized :
    (Producer.init [116] 0).encode_request
        [PyMessage.mk (List.replicate 1048577 0)] =
      .error .attributeError := rfl

/-- C5 (code evaluation at the failing input): when a receive inside
`IO.read` raises the would-block indication `socket.error(EAGAIN)`, the
handler `except errno.EAGAIN:` — whose target is the integer 11, not an
exception class — matches nothing: the socket.error propagates unchanged
and the connection is NOT torn down (the socket stays set), so the
disconnect-plus-Timeout behaviour the claim describes never happens. -/
theorem read_eagain_not_caught :
    KafkaIO.read (IOState.mk (some ())) 10 [.raised (.socketError EAGAIN)] =
      .raised (.socketError EAGAIN) (IOState.mk (some ())) := rfl

/-- C6 (code evaluation at the failing input): in `_check_reset`, the
healthy would-block case `socket.error(EAGAIN)` raises `AttributeError` —
building the tuple `(errno.EAGAIN, errno.EWOULDBOCK)` looks up the
misspelled, nonexistent attribute — instead of being swallowed; a peek that
returns data does raise the dedicated ConnectionReset error. -/
theorem check_reset_would_block_attribute_error :
    KafkaIO.check_reset (.sockError EAGAIN) = .error .attributeError ∧
    KafkaIO.check_reset (.data [0]) = .error .connectionResetException :=
  ⟨rfl, rfl⟩

theorem check_timer_queue (bp : BatchProducer) (a : Bool) :
    (bp.check_timer a).message_queue = bp.message_queue := by
  unfold BatchProducer.check_timer
  split <;> rfl

theorem enqueue_queue (bp : BatchProducer) (a : Bool) (m : PyMessage) :
    (bp.enqueue a m).message_queue = bp.message_queue ++ [m] := by
  simp [BatchProducer.enqueue, check_timer_queue]

theorem enqueue_respawns (bp : BatchProducer) (a : Bool) (m : PyMessage) :
    (bp.enqueue a m).respawns = (bp.check_timer a).respawns := rfl

theorem check_timer_respawns_cases (bp : BatchProducer) (a : Bool) :
    (bp.check_timer a).respawns = bp.respawns ∨
      (bp.respawns ≤ MAX_RESPAWNS ∧
        (bp.check_timer a).respawns = bp.respawns + 1) := by
  unfold BatchProducer.check_timer
  split
  · exact Or.inl rfl
  · rename_i hguard
    right
    constructor
    · by_contra hgt
      exact hguard (Or.inr (by omega))
    · rfl

theorem runEnqueues_queue (evs : List (Bool × PyMessage)) :
    ∀ bp : BatchProducer,
      (runEnqueues bp evs).message_queue =
        bp.message_queue ++ evs.map Prod.snd := by
  induction evs with
  | nil => intro bp; simp [runEnqueues]
  | cons ev evs ih =>
    intro bp
    obtain ⟨a, m⟩ := ev
    rw [runEnqueues, ih, enqueue_queue]
    simp

theorem runEnqueues_respawns (evs : List (Bool × PyMessage)) :
    ∀ bp : BatchProducer,
      (runEnqueues bp evs).respawns = bp.respawns + startCount bp evs := by
  induction evs with
  | nil => intro bp; simp [runEnqueues, startCount]
  | cons ev evs ih =>
    intro bp
    obtain ⟨a, m⟩ := ev
    rw [runEnqueues, ih, startCount]
    rcases check_timer_respawns_cases bp a with h | ⟨_, h⟩
    · rw [if_pos h, enqueue_respawns, h]
      omega
    · rw [if_neg (by rw [h]; omega), enqueue_respawns, h]
      omega

theorem runEnqueues_respawns_bound (evs : List (Bool × PyMessage)) :
    ∀ bp : BatchProducer,
      (runEnqueues bp evs).respawns ≤ max bp.respawns (MAX_RESPAWNS + 1) := by
  induction evs with
  | nil => intro bp; simp [runEnqueues]
  | cons ev evs ih =>
    intro bp
    obtain ⟨a, m⟩ := ev
    rw [runEnqueues]
    refine le_trans (ih _) ?_
    rcases check_timer_respawns_cases bp a with h | ⟨hle, h⟩
    · rw [enqueue_respawns, h]
    · rw [enqueue_respawns, h]
      omega

/-- C7: over any sequence of `enqueue` calls on a fresh BatchProducer, the
flush thread is started at most `MAX_RESPAWNS + 1 = 6` times in total — the
initial start plus at most `MAX_RESPAWNS = 5` respawns; every enqueued
message is appended to the pending queue regardless; and once the budget is
exhausted (`respawns > MAX_RESPAWNS`), `enqueue` appends the message
without attempting to start or restart the thread (timer and counter are
untouched). -/
theorem batch_producer_respawn_budget (evs : List (Bool × PyMessage))
    (bp : BatchProducer) (a : Bool) (m : PyMessage)
    (hex : bp.respawns > MAX_RESPAWNS) :
    startCount BatchProducer.init evs ≤ MAX_RESPAWNS + 1 ∧
    (runEnqueues BatchProducer.init evs).message_queue = evs.map Prod.snd ∧
    bp.enqueue a m = { bp with message_queue := bp.message_queue ++ [m] } := by
  refine ⟨?_, ?_, ?_⟩
  · have h1 := runEnqueues_respawns evs BatchProducer.init
    have h2 := runEnqueues_respawns_bound evs BatchProducer.init
    have hinit : BatchProducer.init.respawns = 0 := rfl
    rw [hinit, Nat.zero_add] at h1
    rw [hinit, Nat.max_eq_right (by omega)] at h2
    omega
  · rw [runEnqueues_queue]
    simp [BatchProducer.init]
  · unfold BatchProducer.enqueue BatchProducer.check_timer
    rw [if_pos (Or.inr hex)]

/-- Witness for C7 at concrete inputs: one enqueue on a fresh instance, and
one enqueue on an instance whose respawn budget is exhausted (counter 6). -/
theorem batch_producer_respawn_budget_witness :
    startCount BatchProducer.init [(false, PyMessage.mk [1])] ≤ MAX_RESPAWNS + 1 ∧
    (runEnqueues BatchProducer.init [(false, PyMessage.mk [1])]).message_queue =
      [(false, PyMessage.mk [1])].map Prod.snd ∧
    (BatchProducer.mk [] true 6).enqueue false (PyMessage.mk [2]) =
      { BatchProducer.mk [] true 6 with
        message_queue := (BatchProducer.mk [] true 6).message_queue ++
          [PyMessage.mk [2]] } :=
  batch_producer_respawn_budget [(false, PyMessage.mk [1])]
    (BatchProducer.mk [] true 6) false (PyMessage.mk [2]) (by decide)

theorem writeLoop_ok_full (steps : List WriteStep) :
    ∀ (st : IOState) (L wrote n : Nat) (st2 : IOState),
    wrote ≤ L → sendsBounded (L - wrote) steps →
    writeLoop st L wrote steps = .ok n st2 → n = L := by
  induction steps with
  | nil =>
    intro st L wrote n st2 hle hb h
    unfold writeLoop at h
    by_cases hc : L ≤ wrote
    · rw [if_pos hc] at h
      simp only [WriteResult.ok.injEq] at h
      omega
    · rw [if_neg hc] at h
      exact absurd h (by simp)
  | cons s rest ih =>
    intro st L wrote n st2 hle hb h
    unfold writeLoop at h
    by_cases hc : L ≤ wrote
    · rw [if_pos hc] at h
      simp only [WriteResult.ok.injEq] at h
      omega
    · rw [if_neg hc] at h
      obtain ⟨hb1, hb2⟩ := hb
      cases hcr : KafkaIO.check_reset s.peek with
      | error e =>
        simp only [hcr] at h
        exact absurd h (by simp)
      | ok u =>
        simp only [hcr] at h
        refine ih st L (wrote + s.sent) n st2 (by omega) ?_ h
        rw [show L - (wrote + s.sent) = L - wrote - s.sent from by omega]
        exact hb2

/-- C10: whenever the send loop of `IO.write(data)` returns normally, the
returned count equals `len(data)` — the whole buffer was transmitted —
given the OS contract that `socket.send` never reports more bytes than
remain.  Consequently `Producer.send`'s short-write branch, which raises
IOError when `sent != len(message)`, can never fire on a frame whose write
returned normally. -/
theorem write_ok_implies_full_length (st : IOState) (data : List Nat)
    (steps : List WriteStep) (n : Nat) (st2 : IOState)
    (hb : sendsBounded data.length steps)
    (h : KafkaIO.write st data steps = .ok n st2) : n = data.length := by
  unfold KafkaIO.write at h
  exact writeLoop_ok_full steps _ data.length 0 n st2 (Nat.zero_le _)
    (by simpa using hb) h

/-- Witness for C10 at a concrete input: writing the empty buffer returns
normally with count 0 = len(data). -/
theorem write_ok_implies_full_length_witness :
    (0 : Nat) = ([] : List Nat).length ∧
    KafkaIO.write (IOState.mk (some ())) [] [] =
      .ok 0 (IOState.mk (some ())) :=
  ⟨write_ok_implies_full_length (IOState.mk (some ())) [] [] 0
      (IOState.mk (some ())) trivial rfl,
   rfl⟩

theorem check_reset_raises (pv : PeekEvent) :
    ∃ e, KafkaIO.check_reset pv = .error e := by
  cases pv with
  | data bs => exact ⟨.connectionResetException, rfl⟩
  | sockError err => exact ⟨.attributeError, rfl⟩

theorem writeLoop_nonzero_raises (st : IOState) (L : Nat) (hL : 0 < L)
    (s : WriteStep) (rest : List WriteStep) :
    ∃ e, writeLoop st L 0 (s :: rest) = .raised e st := by
  obtain ⟨e, he⟩ := check_reset_raises s.peek
  refine ⟨e, ?_⟩
  unfold writeLoop
  rw [if_neg (by omega)]
  simp only [he]

theorem write_nonempty_raises_or_blocks (st : IOState) (data : List Nat)
    (steps : List WriteStep) (hne : data ≠ []) :
    KafkaIO.write st data steps = .blocked ∨
      ∃ e st2, KafkaIO.write st data steps = .raised e st2 := by
  have hpos : 0 < data.length := List.length_pos.mpr hne
  unfold KafkaIO.write
  cases steps with
  | nil =>
    left
    unfold writeLoop
    rw [if_neg (by omega)]
  | cons s rest =>
    obtain ⟨e, he⟩ := writeLoop_nonzero_raises _ data.length hpos s rest
    exact Or.inr ⟨e, _, he⟩

theorem encode_request_size_ne_nil (c : Consumer) :
    c.encode_request_size ≠ [] := by
  have h : c.encode_request_size.length = 4 := by
    unfold Consumer.encode_request_size
    exact packI32_length _
  intro hcontra
  rw [hcontra] at h
  simp at h

theorem consume_never_returns_messages (c : Consumer) (st : IOState)
    (steps1 steps2 : List WriteStep) (data : List Nat) :
    (c.consume st steps1 steps2 data).2 = c ∧
      ∀ msgs, (c.consume st steps1 steps2 data).1 ≠ some (.ok msgs) := by
  unfold Consumer.consume
  rcases write_nonempty_raises_or_blocks st c.encode_request_size steps1
      (encode_request_size_ne_nil c) with h | ⟨e, st2, h⟩
  · simp only [h]
    exact ⟨by simp, by simp⟩
  · simp only [h]
    exact ⟨by simp, by simp⟩

/-- C2: across any sequence of `consume()` calls — each driven by its own
connection state, send/peek oracles and response payload — the stored
offset is non-decreasing and its total increase equals the sum of
`4 + size` over all fully decoded messages; a trailing partial message
contributes nothing to the offset.  The accounting is degenerate in this
code: every `consume()` raises inside `IO.write`'s `_check_reset` (which
always raises, see C6) before any response is read, so no message is ever
decoded and the offset never moves at all. -/
theorem consume_offset_monotone (c : Consumer)
    (calls : List (IOState × List WriteStep × List WriteStep × List Nat)) :
    (runConsume c calls).2.offset =
        c.offset + (totalAdvance (runConsume c calls).1 : Int) ∧
      c.offset ≤ (runConsume c calls).2.offset := by
  induction calls generalizing c with
  | nil => simp [runConsume, totalAdvance]
  | cons call rs ih =>
    obtain ⟨st, s1, s2, d⟩ := call
    obtain ⟨hc, hok⟩ := consume_never_returns_messages c st s1 s2 d
    rcases hres : c.consume st s1 s2 d with ⟨o, c1⟩
    rw [hres] at hc hok
    have hc1 : c1 = c := hc
    subst hc1
    rcases o with _ | x
    · simp only [runConsume, hres]
      simp [totalAdvance]
    · rcases x with e | msgs
      · simp only [runConsume, hres]
        exact ih c1
      · exact absurd rfl (hok msgs)

/-- C8 (code evaluation at the failing input): `get_latest_offset` and
`get_earliest_offset` never return an offset: the very first
`self.write(self.encode_request_size())` performs one send and then
`_check_reset()` raises — `AttributeError` in the healthy would-block
case, `ConnectionResetException` when the peek returns data (see C6) — so
the −1/−2 sentinel frame is never even written, no response is read, and
no offset is returned; the stored offset cursor is never mutated on any
path.  The last conjunct evaluates the failing input concretely: the
4-byte size-prefix write whose reset probe sees would-block raises
`AttributeError` with the consumer unchanged. -/
theorem offset_query_never_returns_offset (c : Consumer) (st : IOState)
    (steps1 steps2 : List WriteStep) (resp : List Nat) :
    ((c.get_latest_offset st steps1 steps2 resp).2 = c ∧
      ∀ o, (c.get_latest_offset st steps1 steps2 resp).1 ≠ some (.ok o)) ∧
    ((c.get_earliest_offset st steps1 steps2 resp).2 = c ∧
      ∀ o, (c.get_earliest_offset st steps1 steps2 resp).1 ≠ some (.ok o)) ∧
    (Consumer.mk [116] 0 0 1048576).get_latest_offset (IOState.mk (some ()))
        [WriteStep.mk 4 (.sockError 11)] [] [] =
      (some (.error .attributeError), Consumer.mk [116] 0 0 1048576) := by
  refine ⟨?_, ?_, rfl⟩
  · unfold Consumer.get_latest_offset
    rcases write_nonempty_raises_or_blocks st c.encode_request_size steps1
        (encode_request_size_ne_nil c) with h | ⟨e, st2, h⟩
    · simp only [h]
      exact ⟨by simp, by simp⟩
    · simp only [h]
      exact ⟨by simp, by simp⟩
  · unfold Consumer.get_earliest_offset
    rcases write_nonempty_raises_or_blocks st c.encode_request_size steps1
        (encode_request_size_ne_nil c) with h | ⟨e, st2, h⟩
    · simp only [h]
      exact ⟨by simp, by simp⟩
    · simp only [h]
      exact ⟨by simp, by simp⟩
